import Mathlib

/-!
Shallow embedding of the FVA-600 optical-attenuator driver
(`FVA_600.py` together with `FVA_600_utilities.py`).

The USB transport (FTDI D2XX calls) is an external collaborator: it is
modelled as a `Device` oracle that answers each write/read by position in
the interaction, and every transport call is recorded in a `Wire` trace so
that theorems can speak about exactly which traffic an operation issues.
Python numbers that the driver only compares (wavelengths) are modelled as
rationals; byte strings are lists of naturals.
-/

set_option maxRecDepth 8000

/-- Device status enumeration from `FVA_600_utilities.DeviceStatus`. -/
inductive DeviceStatus
  | DISCONNECTED
  | DEFECTIVE
  | IDLE
  | SETTLING
  | CORRECTING
deriving DecidableEq, Repr

/-- Payload of a `DeviceError` exception: a recognised nonzero error code, an
unrecognised code (`CheckDeviceError`), or the "device is not idle" error
raised by `do_zero_device`. -/
inductive DevErr
  | known (c : Nat)
  | unknown (c : Nat)
  | notIdle (st : DeviceStatus)
deriving DecidableEq, Repr

/-- The exceptions the embedded driver code can raise. `unboundLocal` is
Python's `UnboundLocalError` for `last_error` in `query_device`;
`unboundLocalZero` is the same for `current_error` in `do_zero_device`;
`pollFuel` is a model artifact marking exhaustion of the fuel bound put on
the (unbounded) busy-wait polling loops. -/
inductive PyError
  | sessionClosed
  | usbTimeout
  | device (e : DevErr)
  | unboundLocal
  | unboundLocalZero
  | valueError
  | structError
  | pollFuel
deriving DecidableEq, Repr

/-- The numeric values of the `DeviceErrorTypes` enumeration. -/
def deviceErrorCodes : List Nat :=
  [0, 4, 5, 6, 7, 8, 9, 10, 15, 34, 36, 37, 38, 40, 41, 42, 43, 44, 45,
   46, 47, 48, 49, 79, 81, 82, 83, 85, 90, 92]

/-- Embeds `CheckDeviceError`: an unrecognised code raises a `DeviceError`
("Unknown error"), a recognised nonzero code raises a `DeviceError` with the
code's name, code 0 (`OK`) passes. -/
def CheckDeviceError (v : Nat) : Except DevErr Unit :=
  if v ∈ deviceErrorCodes then
    if v ≠ 0 then .error (.known v) else .ok ()
  else .error (.unknown v)

/-- One shift step of the reflected CRC-16/MODBUS algorithm
(polynomial 0xA001, the reflection of 0x8005). -/
def crcShiftStep (c : Nat) : Nat :=
  if c % 2 = 1 then (c / 2) ^^^ 0xA001 else c / 2

/-- Iterated CRC shift steps. -/
def crcShifts : Nat → Nat → Nat
  | 0, c => c
  | n + 1, c => crcShifts n (crcShiftStep c)

/-- Feed one data byte into the CRC state. -/
def crcByteStep (c b : Nat) : Nat := crcShifts 8 (c ^^^ (b % 256))

/-- Embeds `crc16 = mkCrcFun('modbus')`: CRC-16/MODBUS with initial value
0xFFFF and no final xor. -/
def crc16 (data : List Nat) : Nat := data.foldl crcByteStep 0xFFFF

/-- Little-endian two-byte encoding of a 16-bit value (`struct.pack '<H'`). -/
def le16 (n : Nat) : List Nat := [n % 256, n / 256 % 256]

/-- Embeds `struct.unpack("<BH", BUFFER1)` on the 3-byte response header:
error byte, then little-endian body length.  Only ever applied to lists of
length exactly 3 (the driver checks the read length first). -/
def unpackBH (b : List Nat) : Nat × Nat :=
  match b with
  | [e, l0, l1] => (e, l0 + 256 * l1)
  | _ => (0, 0)

/-- One transport-level operation, as recorded in the wire trace. -/
inductive WireOp
  | purge
  | write (data : List Nat)
  | read (n : Nat)
  | closeHandle
deriving DecidableEq, Repr

/-- The external transport/device collaborator: answers the i-th transport
operation (indexed by the number of operations performed so far).
`writeRes i n` is the byte count `LEN_WRITTEN` reported for a write of `n`
bytes; `readRes i n` is the byte string returned for a read of `n` bytes
(its length is the reported `LEN_WRITTEN`). -/
structure Device where
  writeRes : Nat → Nat → Nat
  readRes : Nat → Nat → List Nat

/-- A device oracle together with the trace of transport operations
performed so far. -/
structure Wire where
  dev : Device
  trace : List WireOp

/-- Embeds `USBPurge(self.HANDLE, 3)`. -/
def Wire.purge (w : Wire) : Wire :=
  { w with trace := w.trace ++ [WireOp.purge] }

/-- Embeds `USBWrite`: returns the reported `LEN_WRITTEN` and records the op. -/
def Wire.write (w : Wire) (d : List Nat) : Nat × Wire :=
  (w.dev.writeRes w.trace.length d.length,
   { w with trace := w.trace ++ [WireOp.write d] })

/-- Embeds `USBRead`: returns the bytes delivered and records the op. -/
def Wire.read (w : Wire) (n : Nat) : List Nat × Wire :=
  (w.dev.readRes w.trace.length n,
   { w with trace := w.trace ++ [WireOp.read n] })

/-- Embeds `USBClose`. -/
def Wire.closeUsb (w : Wire) : Wire :=
  { w with trace := w.trace ++ [WireOp.closeHandle] }

/-- A fresh wire over a given device oracle: no traffic yet. -/
def wire0 (d : Device) : Wire := ⟨d, []⟩

/-- Embeds `DeviceDescriptor` (`FVA_600_utilities.py`); float fields are
modelled as rationals. -/
structure DeviceDescriptor where
  manufacturer : String
  model : String
  serial : String
  firmware : String
  fiberType : String
  wavelengthRange : Rat × Rat
  attenuationLin : Rat
  attenuationRep : Rat
  wavelengthsList : List Rat
  attStepList : List Rat

/-- The mutable state of an `FVA600` driver object that the embedded methods
consult: the `is_closed` flag and the immutable descriptor. -/
structure Session where
  is_closed : Bool
  device_descriptor : DeviceDescriptor

namespace FVA600

/-- Embeds lines 84-85 of `query_device`: `temp_buf` is the little-endian
u16 length followed by the command bytes, `final_buf` appends the
little-endian u16 CRC-16/MODBUS of `temp_buf`. -/
def encodeFrame (command : List Nat) : List Nat :=
  let temp := le16 command.length ++ command
  temp ++ le16 (crc16 temp)

/-- Outcome of a single attempt of the `query_device` retry loop: header
accepted (carrying the announced body length), a `DeviceError` (caught by
the loop), or any other exception (propagates out of the loop). -/
inductive AttemptOut
  | headerOk (bodyLen : Nat)
  | devErr (e : DevErr)
  | fatal (e : PyError)
deriving DecidableEq, Repr

/-- One iteration of the `query_device` retry loop (lines 88-104): purge,
write the frame (checking `LEN_WRITTEN`), read the 3-byte header (checking
`LEN_WRITTEN`), unpack it and run `CheckDeviceError`. -/
def queryAttempt (buf : List Nat) (w : Wire) : AttemptOut × Wire :=
  let p := (w.purge).write buf
  if p.1 ≠ buf.length then (.fatal .usbTimeout, p.2)
  else
    let q := p.2.read 3
    if q.1.length ≠ 3 then (.fatal .usbTimeout, q.2)
    else
      let el := unpackBH q.1
      match CheckDeviceError el.1 with
      | .error de => (.devErr de, q.2)
      | .ok _ => (.headerOk el.2, q.2)

/-- The `for i in range(retry) ... else: raise last_error` loop of
`query_device`.  The `Option DevErr` argument is the `last_error` variable:
`none` while unassigned, so exiting the loop with fuel 0 and `none` raises
Python's `UnboundLocalError`. -/
def queryLoop (buf : List Nat) : Nat → Option DevErr → Wire →
    Except PyError Nat × Wire
  | 0, none, w => (.error .unboundLocal, w)
  | 0, some e, w => (.error (.device e), w)
  | n + 1, _, w =>
    match queryAttempt buf w with
    | (.headerOk len, w) => (.ok len, w)
    | (.devErr e, w) => queryLoop buf n (some e) w
    | (.fatal e, w) => (.error e, w)

/-- Embeds `FVA600.query_device`: fail fast when closed, build the frame,
run the retry loop, then read the announced body (checking `LEN_WRITTEN`),
purge and return the body. -/
def query_device (s : Session) (command : List Nat) (retry : Nat)
    (w : Wire) : Except PyError (List Nat) × Wire :=
  if s.is_closed then (.error .sessionClosed, w)
  else
    match queryLoop (encodeFrame command) retry none w with
    | (.error e, w) => (.error e, w)
    | (.ok len, w) =>
      let b := w.read len
      if b.1.length ≠ len then (.error .usbTimeout, b.2)
      else (.ok b.1, b.2.purge)

/-- Embeds the `FVA600.status` property: `DISCONNECTED` when closed,
otherwise query command 188 (with the default retry budget 10) and decode
the first three response bytes with the source's if-chain
(`flag2`, then `flag1`, then `flag3`). -/
def status (s : Session) (w : Wire) : Except PyError DeviceStatus × Wire :=
  if s.is_closed then (.ok .DISCONNECTED, w)
  else
    match query_device s [188] 10 w with
    | (.error e, w) => (.error e, w)
    | (.ok ret, w) =>
      match ret with
      | f1 :: f2 :: f3 :: _ =>
        (.ok (if f2 = 1 then .CORRECTING
              else if f1 = 1 then .SETTLING
              else if f3 = 1 then .DEFECTIVE
              else .IDLE), w)
      | _ => (.error .structError, w)

/-- Embeds `FVA600.set_remote`: command 112 with a 0/1 payload, default
retry budget. -/
def set_remote (s : Session) (remote : Bool) (w : Wire) :
    Except PyError (List Nat) × Wire :=
  if remote then query_device s [112, 1] 10 w
  else query_device s [112, 0] 10 w

/-- Embeds `FVA600.close`: a no-op when already closed, otherwise set local
mode, close the transport handle and mark the session closed.  A failure in
`set_remote` propagates before the handle is closed or the flag is set,
mirroring the Python exception flow. -/
def close (s : Session) (w : Wire) : Session × Except PyError Unit × Wire :=
  if s.is_closed then (s, .ok (), w)
  else
    match set_remote s false w with
    | (.error e, w) => (s, .error e, w)
    | (.ok _, w) => ({ s with is_closed := true }, .ok (), w.closeUsb)

/-- The `while self.status == DeviceStatus.SETTLING: continue` busy-wait of
the wavelength setter, bounded by fuel (the source loop is unbounded). -/
def pollSettling (s : Session) : Nat → Wire → Except PyError Unit × Wire
  | 0, w => (.error .pollFuel, w)
  | n + 1, w =>
    match status s w with
    | (.error e, w) => (.error e, w)
    | (.ok st, w) =>
      if st = .SETTLING then pollSettling s n w else (.ok (), w)

/-- Embeds the `FVA600.wavelength` setter: validate against the descriptor's
fixed wavelength range (raising `ValueError` locally), then send command 177
with the float32-packed value and busy-wait while the device settles.
`packf` is the external `struct.pack '<f'` float32 byte encoder. -/
def wavelength_set (s : Session) (packf : Rat → List Nat) (value : Rat)
    (fuel : Nat) (w : Wire) : Except PyError Unit × Wire :=
  let wlRange := s.device_descriptor.wavelengthRange
  if value < wlRange.1 then (.error .valueError, w)
  else if value > wlRange.2 then (.error .valueError, w)
  else
    match query_device s (177 :: packf value) 10 w with
    | (.error e, w) => (.error e, w)
    | (.ok _, w) => pollSettling s fuel w

/-- The `for i in range(10) ... else: raise current_error` loop of
`do_zero_device`: each iteration issues command 186 with `retry = 0`; on
success it breaks; on any exception it re-reads the status, breaks as
success when `CORRECTING`, otherwise retains the error (`current_error`)
and continues.  An error raised by the status re-read itself propagates. -/
def zeroLoop (s : Session) : Nat → Option PyError → Wire →
    Except PyError Unit × Wire
  | 0, none, w => (.error .unboundLocalZero, w)
  | 0, some e, w => (.error e, w)
  | n + 1, _, w =>
    match query_device s [186] 0 w with
    | (.ok _, w) => (.ok (), w)
    | (.error err, w) =>
      match status s w with
      | (.error e2, w) => (.error e2, w)
      | (.ok st, w) =>
        if st = .CORRECTING then (.ok (), w)
        else zeroLoop s n (some err) w

/-- The `while self.status == DeviceStatus.CORRECTING: continue` busy-wait
at the end of `do_zero_device`, bounded by fuel (the source loop is
unbounded). -/
def pollCorrecting (s : Session) : Nat → Wire → Except PyError Unit × Wire
  | 0, w => (.error .pollFuel, w)
  | n + 1, w =>
    match status s w with
    | (.error e, w) => (.error e, w)
    | (.ok st, w) =>
      if st = .CORRECTING then pollCorrecting s n w else (.ok (), w)

/-- Embeds `FVA600.do_zero_device`: check the status precondition (raising
a `DeviceError` naming the status when not `IDLE`), run the outer retry
loop for command 186, then optionally busy-wait while correcting. -/
def do_zero_device (s : Session) (wait_for_end : Bool) (fuel : Nat)
    (w : Wire) : Except PyError Unit × Wire :=
  match status s w with
  | (.error e, w) => (.error e, w)
  | (.ok st, w) =>
    if st ≠ .IDLE then (.error (.device (.notIdle st)), w)
    else
      match zeroLoop s 10 none w with
      | (.error e, w) => (.error e, w)
      | (.ok _, w) =>
        if wait_for_end then pollCorrecting s fuel w else (.ok (), w)

end FVA600

/-- Modelled from the spec: the status decode as §4.5 words it — precedence
Correcting over Settling over Defective over Idle, applied to the flag
triple (settling, correcting, defective).  Compared against the source's
decode in the C3 theorem. -/
def specStatusDecode (settling correcting defective : Nat) : DeviceStatus :=
  if correcting = 1 then .CORRECTING
  else if settling = 1 then .SETTLING
  else if defective = 1 then .DEFECTIVE
  else .IDLE

/-- A fixed concrete device descriptor used for witness runs. -/
def descr0 : DeviceDescriptor :=
  ⟨"EXFO", "FVA-600", "123456", "1.0", "SMF", (1200, 1700), 0.1, 0.05,
   [1310, 1550], [1, 5]⟩

/-- An open session over `descr0`. -/
def openS : Session := ⟨false, descr0⟩

/-- A closed session over `descr0`. -/
def closedS : Session := ⟨true, descr0⟩

/-- A degenerate device oracle: writes report 0 bytes written, reads return
nothing.  Used where the oracle is irrelevant. -/
def dev0 : Device := ⟨fun _ _ => 0, fun _ _ => []⟩

/-- A device oracle that answers one successful query: an OK header
announcing 3 body bytes, then the body `[a, b, c]`.  The header read is the
third transport op of a query (index 2). -/
def flagsDev (a b c : Nat) : Device :=
  ⟨fun _ n => n, fun t _ => if t = 2 then [0, 3, 0] else [a, b, c]⟩

/-- A device oracle for runs made of back-to-back first-attempt-successful
status queries: query q occupies transport ops [5q, 5q+5), its header read
(op 5q+2) announces 3 bytes and its body read returns `flags q`. -/
def statusSeqDev (flags : Nat → Nat × Nat × Nat) : Device :=
  ⟨fun _ n => n,
   fun t _ =>
     if t % 5 = 2 then [0, 3, 0]
     else [(flags (t / 5)).1, (flags (t / 5)).2.1, (flags (t / 5)).2.2]⟩

/-- A device oracle scripting one query whose attempt i is answered with
header error byte `hdrs i`: a nonzero value makes the attempt fail with a
device error, value 0 announces `body` (read back on the following op).
While attempts fail, attempt i occupies transport ops [3i, 3i+3). -/
def scriptDev (hdrs : Nat → Nat) (body : List Nat) : Device :=
  ⟨fun _ n => n,
   fun t _ =>
     if t % 3 = 2 then
       if hdrs (t / 3) = 0 then 0 :: le16 body.length else [hdrs (t / 3), 0, 0]
     else body⟩

/-- Number of transport writes in a trace: one per protocol attempt. -/
def countWrites (tr : List WireOp) : Nat :=
  (tr.filter fun op => match op with | WireOp.write _ => true | _ => false).length

/-- The wire after one first-attempt-successful status query against
`flagsDev a b c`, starting from an empty trace. -/
def statusRunWire (a b c : Nat) : Wire :=
  ⟨flagsDev a b c,
   [WireOp.purge, WireOp.write (FVA600.encodeFrame [188]), WireOp.read 3,
    WireOp.read 3, WireOp.purge]⟩

/-- A device whose status is decoded as `IDLE` on every status query. -/
def idleSeqDev : Device := statusSeqDev fun _ => (0, 0, 0)

/-- Header-error script for a query run: device error code 10 on the first
two attempts, then success. -/
def hdrsA : Nat → Nat := fun i => if i < 2 then 10 else 0

/-- Header-error script for a query run: device error code 5 on the first
attempt, code 10 on every later one (all attempts fail). -/
def hdrsB : Nat → Nat := fun i => if i = 0 then 5 else 10

/-! ## Helper lemmas -/

theorem countWrites_append (a b : List WireOp) :
    countWrites (a ++ b) = countWrites a + countWrites b := by
  simp [countWrites, List.filter_append]

theorem queryAttempt_trace (buf : List Nat) (w : Wire) :
    (FVA600.queryAttempt buf w).2.dev = w.dev ∧
    ∃ ext, (FVA600.queryAttempt buf w).2.trace = w.trace ++ ext ∧
      ∀ d, WireOp.write d ∈ ext → d = buf := by
  unfold FVA600.queryAttempt
  simp only [Wire.purge, Wire.write, Wire.read]
  split
  · refine ⟨rfl, [WireOp.purge, WireOp.write buf], by simp, ?_⟩
    intro d hd
    simp only [List.mem_cons, List.mem_singleton] at hd
    rcases hd with h | h | h
    · exact absurd h (by simp)
    · exact (WireOp.write.injEq d buf).mp h
    · cases h
  · split
    · refine ⟨rfl, [WireOp.purge, WireOp.write buf, WireOp.read 3], by simp, ?_⟩
      intro d hd
      simp only [List.mem_cons, List.mem_singleton] at hd
      rcases hd with h | h | h | h
      · exact absurd h (by simp)
      · exact (WireOp.write.injEq d buf).mp h
      · exact absurd h (by simp)
      · cases h
    · split
      all_goals
        refine ⟨rfl, [WireOp.purge, WireOp.write buf, WireOp.read 3], by simp, ?_⟩
        intro d hd
        simp only [List.mem_cons, List.mem_singleton] at hd
        rcases hd with h | h | h | h
        · exact absurd h (by simp)
        · exact (WireOp.write.injEq d buf).mp h
        · exact absurd h (by simp)
        · cases h

theorem queryLoop_writes (buf : List Nat) :
    ∀ (n : Nat) (last : Option DevErr) (w : Wire) (r : Except PyError Nat)
      (w1 : Wire), FVA600.queryLoop buf n last w = (r, w1) →
      w1.dev = w.dev ∧ ∃ ext, w1.trace = w.trace ++ ext ∧
        ∀ d, WireOp.write d ∈ ext → d = buf := by
  intro n
  induction n with
  | zero =>
    intro last w r w1 h
    cases last <;> simp only [FVA600.queryLoop] at h <;>
      (cases h; exact ⟨rfl, [], by simp, by intro d hd; cases hd⟩)
  | succ n ih =>
    intro last w r w1 h
    unfold FVA600.queryLoop at h
    rcases hA : FVA600.queryAttempt buf w with ⟨o, wA⟩
    rw [hA] at h
    obtain ⟨hdev, ext, hext, hwr⟩ := queryAttempt_trace buf w
    rw [hA] at hdev hext
    cases o with
    | headerOk len =>
      cases h
      exact ⟨hdev, ext, hext, hwr⟩
    | devErr e =>
      obtain ⟨hdev2, ext2, hext2, hwr2⟩ := ih (some e) wA r w1 h
      refine ⟨hdev2.trans hdev, ext ++ ext2, ?_, ?_⟩
      · rw [hext2, hext, List.append_assoc]
      · intro d hd
        rcases List.mem_append.mp hd with h2 | h2
        · exact hwr d h2
        · exact hwr2 d h2
    | fatal e =>
      cases h
      exact ⟨hdev, ext, hext, hwr⟩

theorem query_device_writes (s : Session) (cmd : List Nat) (r : Nat)
    (w : Wire) (res : Except PyError (List Nat)) (w1 : Wire)
    (h : FVA600.query_device s cmd r w = (res, w1)) :
    w1.dev = w.dev ∧ ∀ d, WireOp.write d ∈ w1.trace →
      WireOp.write d ∈ w.trace ∨ d = FVA600.encodeFrame cmd := by
  unfold FVA600.query_device at h
  split at h
  · cases h
    exact ⟨rfl, fun d hd => Or.inl hd⟩
  · rcases hL : FVA600.queryLoop (FVA600.encodeFrame cmd) r none w with ⟨rr, wL⟩
    rw [hL] at h
    obtain ⟨hdev, ext, hext, hwr⟩ :=
      queryLoop_writes (FVA600.encodeFrame cmd) r none w rr wL hL
    have hmem : ∀ d, WireOp.write d ∈ wL.trace →
        WireOp.write d ∈ w.trace ∨ d = FVA600.encodeFrame cmd := by
      intro d hd
      rw [hext] at hd
      rcases List.mem_append.mp hd with h2 | h2
      · exact Or.inl h2
      · exact Or.inr (hwr d h2)
    cases rr with
    | error e =>
      cases h
      exact ⟨hdev, hmem⟩
    | ok len =>
      simp only [Wire.read, Wire.purge] at h
      split at h
      · cases h
        refine ⟨hdev, ?_⟩
        intro d hd
        simp only [List.mem_append, List.mem_singleton] at hd
        rcases hd with h2 | h2
        · exact hmem d h2
        · exact absurd h2 (by simp)
      · cases h
        refine ⟨hdev, ?_⟩
        intro d hd
        simp only [List.mem_append, List.mem_singleton] at hd
        rcases hd with (h2 | h2) | h2
        · exact hmem d h2
        · exact absurd h2 (by simp)
        · exact absurd h2 (by simp)

theorem status_writes (s : Session) (w : Wire)
    (res : Except PyError DeviceStatus) (w1 : Wire)
    (h : FVA600.status s w = (res, w1)) :
    w1.dev = w.dev ∧ ∀ d, WireOp.write d ∈ w1.trace →
      WireOp.write d ∈ w.trace ∨ d = FVA600.encodeFrame [188] := by
  unfold FVA600.status at h
  split at h
  · cases h
    exact ⟨rfl, fun d hd => Or.inl hd⟩
  · rcases hQ : FVA600.query_device s [188] 10 w with ⟨qr, wQ⟩
    rw [hQ] at h
    have hq := query_device_writes s [188] 10 w qr wQ hQ
    cases qr with
    | error e =>
      cases h
      exact hq
    | ok ret =>
      match ret, h with
      | [], h => cases h; exact hq
      | [f1], h => cases h; exact hq
      | [f1, f2], h => cases h; exact hq
      | f1 :: f2 :: f3 :: rest, h => cases h; exact hq

theorem scriptAttempt_bad (hdrs : Nat → Nat) (body buf : List Nat)
    (w : Wire) (j : Nat) (hdev : w.dev = scriptDev hdrs body)
    (htr : w.trace.length = 3 * j)
    (hmem : hdrs j ∈ deviceErrorCodes) (hnz : hdrs j ≠ 0) :
    FVA600.queryAttempt buf w =
      (.devErr (.known (hdrs j)),
       ⟨w.dev, w.trace ++ [WireOp.purge, WireOp.write buf, WireOp.read 3]⟩) := by
  unfold FVA600.queryAttempt
  simp only [Wire.purge, Wire.write, Wire.read, hdev, scriptDev]
  have h2 : (w.trace ++ [WireOp.purge] ++ [WireOp.write buf]).length = 3 * j + 2 := by
    simp [htr]
  rw [h2]
  have hm3 : (3 * j + 2) % 3 = 2 := by omega
  have hd3 : (3 * j + 2) / 3 = j := by omega
  rw [if_neg (by simp), hm3, hd3]
  rw [if_pos rfl, if_neg hnz, if_neg (by simp)]
  unfold unpackBH CheckDeviceError
  simp only []
  rw [if_pos hmem, if_pos hnz]
  simp [List.append_assoc]

theorem scriptAttempt_good (hdrs : Nat → Nat) (body buf : List Nat)
    (w : Wire) (j : Nat) (hdev : w.dev = scriptDev hdrs body)
    (htr : w.trace.length = 3 * j)
    (hz : hdrs j = 0) (hbl : body.length < 65536) :
    FVA600.queryAttempt buf w =
      (.headerOk body.length,
       ⟨w.dev, w.trace ++ [WireOp.purge, WireOp.write buf, WireOp.read 3]⟩) := by
  unfold FVA600.queryAttempt
  simp only [Wire.purge, Wire.write, Wire.read, hdev, scriptDev]
  have h2 : (w.trace ++ [WireOp.purge] ++ [WireOp.write buf]).length = 3 * j + 2 := by
    simp [htr]
  rw [h2]
  have hm3 : (3 * j + 2) % 3 = 2 := by omega
  have hd3 : (3 * j + 2) / 3 = j := by omega
  rw [if_neg (by simp), hm3, hd3]
  rw [if_pos rfl, if_pos hz, if_neg (by simp [le16])]
  unfold unpackBH le16 CheckDeviceError
  simp only []
  rw [if_pos (by decide), if_neg (by simp)]
  have hlen : body.length % 256 + 256 * (body.length / 256 % 256) = body.length := by
    omega
  rw [hlen]
  simp [List.append_assoc]

theorem scriptLoop_bad (hdrs : Nat → Nat) (body buf : List Nat) :
    ∀ n : Nat, 1 ≤ n → ∀ (j : Nat) (w : Wire) (last : Option DevErr),
      w.dev = scriptDev hdrs body → w.trace.length = 3 * j →
      (∀ m, m < n → hdrs (j + m) ∈ deviceErrorCodes ∧ hdrs (j + m) ≠ 0) →
      ∃ w1, FVA600.queryLoop buf n last w =
        (.error (.device (.known (hdrs (j + n - 1)))), w1) := by
  intro n
  induction n with
  | zero => intro h; omega
  | succ n ih =>
    intro _ j w last hdev htr hbad
    unfold FVA600.queryLoop
    rw [scriptAttempt_bad hdrs body buf w j hdev htr
      (hbad 0 (by omega)).1 (by simpa using (hbad 0 (by omega)).2)]
    cases n with
    | zero =>
      refine ⟨⟨w.dev, w.trace ++ [WireOp.purge, WireOp.write buf, WireOp.read 3]⟩, ?_⟩
      simp [FVA600.queryLoop]
    | succ m =>
      have htr2 : (w.trace ++ [WireOp.purge, WireOp.write buf, WireOp.read 3]).length
          = 3 * (j + 1) := by simp [htr]; omega
      obtain ⟨w1, hw1⟩ := ih (by omega) (j + 1)
        ⟨w.dev, w.trace ++ [WireOp.purge, WireOp.write buf, WireOp.read 3]⟩
        (some (.known (hdrs j))) hdev htr2
        (by
          intro m2 hm2
          have := hbad (m2 + 1) (by omega)
          have he : j + (m2 + 1) = j + 1 + m2 := by omega
          rwa [he] at this)
      refine ⟨w1, ?_⟩
      have he2 : j + 1 + (m + 1) - 1 = j + (m + 1 + 1) - 1 := by omega
      rw [he2] at hw1
      exact hw1

theorem scriptLoop_good (hdrs : Nat → Nat) (body buf : List Nat)
    (hbl : body.length < 65536) :
    ∀ k n j : Nat, ∀ (w : Wire) (last : Option DevErr),
      w.dev = scriptDev hdrs body → w.trace.length = 3 * j → k < n →
      (∀ m, m < k → hdrs (j + m) ∈ deviceErrorCodes ∧ hdrs (j + m) ≠ 0) →
      hdrs (j + k) = 0 →
      ∃ w1, FVA600.queryLoop buf n last w = (.ok body.length, w1) ∧
        w1.dev = w.dev ∧ w1.trace.length = 3 * (j + k + 1) ∧
        countWrites w1.trace = countWrites w.trace + (k + 1) := by
  intro k
  induction k with
  | zero =>
    intro n j w last hdev htr hn hbad hz
    cases n with
    | zero => omega
    | succ n =>
      unfold FVA600.queryLoop
      rw [scriptAttempt_good hdrs body buf w j hdev htr (by simpa using hz) hbl]
      refine ⟨_, rfl, hdev ▸ rfl, ?_, ?_⟩
      · simp [htr]; omega
      · rw [countWrites_append]
        rfl
  | succ k ih =>
    intro n j w last hdev htr hn hbad hz
    cases n with
    | zero => omega
    | succ n =>
      unfold FVA600.queryLoop
      rw [scriptAttempt_bad hdrs body buf w j hdev htr
        (hbad 0 (by omega)).1 (by simpa using (hbad 0 (by omega)).2)]
      have htr2 : (w.trace ++ [WireOp.purge, WireOp.write buf, WireOp.read 3]).length
          = 3 * (j + 1) := by simp [htr]; omega
      obtain ⟨w1, hw1, hdev1, hlen1, hcw1⟩ := ih n (j + 1)
        ⟨w.dev, w.trace ++ [WireOp.purge, WireOp.write buf, WireOp.read 3]⟩
        (some (.known (hdrs j))) hdev htr2 (by omega)
        (by
          intro m2 hm2
          have := hbad (m2 + 1) (by omega)
          have he : j + (m2 + 1) = j + 1 + m2 := by omega
          rwa [he] at this)
        (by
          have he : j + (k + 1) = j + 1 + k := by omega
          rwa [he] at hz)
      refine ⟨w1, hw1, hdev1, ?_, ?_⟩
      · rw [hlen1]; omega
      · rw [hcw1]
        rw [countWrites_append]
        have hone : countWrites [WireOp.purge, WireOp.write buf, WireOp.read 3] = 1 := rfl
        omega

/-! ## Claim theorems -/

/-- C1: the claim says `retry = 0` means "single attempt, surface that
attempt's error".  The code disagrees: `for i in range(0)` runs no attempt
at all — no purge, no write, no read — and the for-else then raises the
never-assigned `last_error`, i.e. an `UnboundLocalError`.  This theorem
evaluates the embedded `query_device` at retry budget 0 on an open session:
the wire is returned untouched (zero attempts) and the error is the
unbound-local error, not any attempt's error. -/
theorem retry_zero_performs_no_attempt (cmd : List Nat) (w : Wire) :
    FVA600.query_device openS cmd 0 w = (.error .unboundLocal, w) := rfl

/-- C3: the status decode reproduces the spec's precedence
Correcting over Settling over Defective over Idle on the flag triple
(settling, correcting, defective) read from the 3-byte status body, with
the four concrete instances (1,1,1), (1,0,1), (0,0,1), (0,0,0) required by
the spec.  `flagsDev a b c` answers the status query with body [a, b, c]. -/
theorem status_precedence :
    (∀ a b c : Nat, (FVA600.status openS (wire0 (flagsDev a b c))).1 =
      .ok (specStatusDecode a b c)) ∧
    (FVA600.status openS (wire0 (flagsDev 1 1 1))).1 = .ok .CORRECTING ∧
    (FVA600.status openS (wire0 (flagsDev 1 0 1))).1 = .ok .SETTLING ∧
    (FVA600.status openS (wire0 (flagsDev 0 0 1))).1 = .ok .DEFECTIVE ∧
    (FVA600.status openS (wire0 (flagsDev 0 0 0))).1 = .ok .IDLE :=
  ⟨fun _ _ _ => rfl, rfl, rfl, rfl, rfl⟩

/-- C8: the encoded request frame is the little-endian u16 payload length,
then the payload, then the little-endian u16 CRC-16/MODBUS computed over
the length field and payload; the `crc16` used is CRC-16/MODBUS (witnessed
by the standard check value 0x4B37 on "123456789"), and the status command
frame comes out concretely as expected. -/
theorem frame_layout :
    (∀ p : List Nat, FVA600.encodeFrame p =
      le16 p.length ++ p ++ le16 (crc16 (le16 p.length ++ p))) ∧
    crc16 [0x31, 0x32, 0x33, 0x34, 0x35, 0x36, 0x37, 0x38, 0x39] = 0x4B37 ∧
    FVA600.encodeFrame [188] = [1, 0, 188, 33, 177] := by
  refine ⟨fun p => ?_, by decide, rfl⟩
  simp [FVA600.encodeFrame, List.append_assoc]

/-- C9: a query on a closed session fails fast with the session-closed
error and the wire state is returned untouched: no purge, write or read is
performed and no frame is built. -/
theorem query_fails_fast_closed (s : Session) (cmd : List Nat) (r : Nat)
    (w : Wire) (h : s.is_closed = true) :
    FVA600.query_device s cmd r w = (.error .sessionClosed, w) := by
  unfold FVA600.query_device
  rw [if_pos h]

/-- Witness for C9 at a concrete closed session. -/
theorem query_fails_fast_closed_w :
    FVA600.query_device closedS [188] 10 (wire0 dev0) =
      (.error .sessionClosed, wire0 dev0) :=
  query_fails_fast_closed closedS [188] 10 (wire0 dev0) rfl

/-- C7: close is idempotent and `is_closed` is monotonic: on an already
closed session, `close` raises no error, performs no transport operation
(in particular no second transport close and no set-local query) and leaves
the session untouched; and no outcome of `close` ever resets `is_closed`
from true back to false. -/
theorem close_idem (s : Session) (w : Wire) :
    (s.is_closed = true → FVA600.close s w = (s, .ok (), w)) ∧
    (∀ s1 r w1, FVA600.close s w = (s1, r, w1) → s.is_closed = true →
      s1.is_closed = true) := by
  constructor
  · intro h
    unfold FVA600.close
    rw [if_pos h]
  · intro s1 r w1 h hc
    unfold FVA600.close at h
    rw [if_pos hc] at h
    cases h
    exact hc

/-- Witness for C7: a second close on an already-closed session is a
no-op. -/
theorem close_idem_w :
    FVA600.close closedS (wire0 dev0) = (closedS, .ok (), wire0 dev0) :=
  (close_idem closedS (wire0 dev0)).1 rfl

/-- C10: reading the status property on a closed session returns
`DISCONNECTED` with no error and no transport traffic (the wire is
untouched, so command 188 is never sent), and on an open session the
decode never produces `DISCONNECTED`. -/
theorem status_closed_disconnected (s : Session) (w : Wire) :
    (s.is_closed = true → FVA600.status s w = (.ok .DISCONNECTED, w)) ∧
    (∀ st w1, s.is_closed = false → FVA600.status s w = (.ok st, w1) →
      st ≠ .DISCONNECTED) := by
  constructor
  · intro h
    unfold FVA600.status
    rw [if_pos h]
  · intro st w1 hopen hq
    unfold FVA600.status at hq
    rw [if_neg (by simp [hopen])] at hq
    rcases hQ : FVA600.query_device s [188] 10 w with ⟨qr, wQ⟩
    rw [hQ] at hq
    cases qr with
    | error e => cases hq
    | ok ret =>
      match ret, hq with
      | [], hq => cases hq
      | [f1], hq => cases hq
      | [f1, f2], hq => cases hq
      | f1 :: f2 :: f3 :: rest, hq =>
        have h1 := (Prod.mk.injEq _ _ _ _).mp hq
        have h2 := h1.1
        injection h2 with h3
        rw [← h3]
        split
        · simp
        · split
          · simp
          · split
            · simp
            · simp

/-- Witness for C10: concrete closed session, plus a concrete open-session
status read decoding to `IDLE`, which is indeed not `DISCONNECTED`. -/
theorem status_closed_disconnected_w :
    FVA600.status closedS (wire0 dev0) = (.ok .DISCONNECTED, wire0 dev0) ∧
    DeviceStatus.IDLE ≠ .DISCONNECTED :=
  ⟨(status_closed_disconnected closedS (wire0 dev0)).1 rfl,
   (status_closed_disconnected openS (wire0 (flagsDev 0 0 0))).2 .IDLE
     (statusRunWire 0 0 0) rfl rfl⟩

/-- C4: setting a wavelength strictly below the descriptor's range low
bound or strictly above its high bound raises the range `ValueError` and
returns the wire untouched — no purge, write or read, hence no round-trip
to the device; the check uses only the fixed descriptor range. -/
theorem wavelength_setter_range_check (s : Session) (packf : Rat → List Nat)
    (v : Rat) (fuel : Nat) (w : Wire)
    (h : v < s.device_descriptor.wavelengthRange.1 ∨
      s.device_descriptor.wavelengthRange.2 < v) :
    FVA600.wavelength_set s packf v fuel w = (.error .valueError, w) := by
  unfold FVA600.wavelength_set
  rcases h with h | h
  · rw [if_pos h]
  · by_cases h2 : v < s.device_descriptor.wavelengthRange.1
    · rw [if_pos h2]
    · rw [if_neg h2, if_pos h]

/-- Witness for C4: 100 nm is below the concrete descriptor's low bound
1200 nm, and the setter fails without touching the wire. -/
theorem wavelength_setter_range_check_w :
    (100 : Rat) < openS.device_descriptor.wavelengthRange.1 ∧
    FVA600.wavelength_set openS (fun _ => []) 100 5 (wire0 dev0) =
      (.error .valueError, wire0 dev0) :=
  ⟨by norm_num [openS, descr0],
   wavelength_setter_range_check openS (fun _ => []) 100 5 (wire0 dev0)
     (Or.inl (by norm_num [openS, descr0]))⟩

/-- C5: when the status read at the start of `do_zero_device` yields any
status other than `IDLE`, the operation fails with the `DeviceError` naming
that status, the final wire is exactly the wire after that one status query,
and every frame written so far beyond the pre-existing trace is the status
frame (command 188) — in particular the zero command 186 is never sent. -/
theorem zero_requires_idle (s : Session) (wfe : Bool) (fuel : Nat) (w : Wire)
    (st : DeviceStatus) (w1 : Wire)
    (hst : FVA600.status s w = (.ok st, w1)) (hne : st ≠ .IDLE) :
    FVA600.do_zero_device s wfe fuel w =
      (.error (.device (.notIdle st)), w1) ∧
    ∀ d, WireOp.write d ∈ w1.trace →
      WireOp.write d ∈ w.trace ∨ d = FVA600.encodeFrame [188] := by
  constructor
  · unfold FVA600.do_zero_device
    rw [hst]
    exact if_pos hne
  · exact (status_writes s w (.ok st) w1 hst).2

/-- Witness for C5: a device reporting the settling flag makes the status
query decode to `SETTLING`, and `do_zero_device` fails with the
not-idle error right after that single status query. -/
theorem zero_requires_idle_w :
    FVA600.status openS (wire0 (flagsDev 1 0 0)) =
      (.ok .SETTLING, statusRunWire 1 0 0) ∧
    (FVA600.do_zero_device openS true 5 (wire0 (flagsDev 1 0 0))).1 =
      .error (.device (.notIdle .SETTLING)) :=
  ⟨rfl,
   by
    rw [(zero_requires_idle openS true 5 (wire0 (flagsDev 1 0 0)) .SETTLING
      (statusRunWire 1 0 0) rfl (by decide)).1]⟩

/-- C6: the claim says command 186 is issued inside the outer 10-attempt
retry loop of `do_zero_device`.  Because each iteration calls
`query_device` with `retry = 0`, which performs no attempt at all (the C1
bug), the zero frame is never written: on a device that always reports an
idle status, all 10 iterations fail with the unbound-local error, the
status re-check never sees `CORRECTING`, and the loop exhausts raising the
retained error; the final trace holds exactly the 11 status queries (55
transport operations) and contains no write of the zero frame. -/
theorem zero_command_never_sent :
    (FVA600.do_zero_device openS false 0 (wire0 idleSeqDev)).1 =
      .error .unboundLocal ∧
    (FVA600.do_zero_device openS false 0 (wire0 idleSeqDev)).2.trace.countP
      (fun op => decide (op = WireOp.write (FVA600.encodeFrame [186]))) = 0 ∧
    (FVA600.do_zero_device openS false 0 (wire0 idleSeqDev)).2.trace.length
      = 55 := by
  refine ⟨rfl, ?_, rfl⟩
  decide

/-- C2: on an open session over a device that answers attempt i of a query
with header error byte `hdrs i`, if the first k attempts carry a (nonzero,
recognised) transient device error and attempt k+1 succeeds, then with any
retry budget b exceeding k the query returns the body successfully and the
trace holds exactly k+1 frame writes (one per attempt); and if every
attempt errors (b of them performed, b ≤ k), the query raises the device
error observed on attempt b — the last one, not the first. -/
theorem query_retry_bound (hdrs : Nat → Nat) (body cmd : List Nat) (k b : Nat)
    (hbl : body.length < 65536)
    (hbad : ∀ m, m < k → hdrs m ∈ deviceErrorCodes ∧ hdrs m ≠ 0) :
    (k < b → hdrs k = 0 →
      (FVA600.query_device openS cmd b (wire0 (scriptDev hdrs body))).1 =
        .ok body ∧
      countWrites
        (FVA600.query_device openS cmd b (wire0 (scriptDev hdrs body))).2.trace
        = k + 1) ∧
    (b ≤ k → 1 ≤ b →
      (FVA600.query_device openS cmd b (wire0 (scriptDev hdrs body))).1 =
        .error (.device (.known (hdrs (b - 1))))) := by
  constructor
  · intro hk hz
    obtain ⟨w1, hw1, hdev1, hlen1, hcw1⟩ :=
      scriptLoop_good hdrs body (FVA600.encodeFrame cmd) hbl k b 0
        (wire0 (scriptDev hdrs body)) none rfl rfl hk
        (by intro m hm; simpa using hbad m hm)
        (by simpa using hz)
    unfold FVA600.query_device
    rw [if_neg (by simp [openS])]
    rw [hw1]
    simp only [Wire.read, Wire.purge]
    rw [hdev1]
    simp only [wire0, scriptDev]
    rw [hlen1]
    have h3 : ¬(3 * (0 + k + 1) % 3 = 2) := by omega
    rw [if_neg h3]
    rw [if_neg (by simp)]
    refine ⟨rfl, ?_⟩
    simp only []
    rw [countWrites_append, countWrites_append, hcw1]
    have h0 : countWrites (wire0 (scriptDev hdrs body)).trace = 0 := rfl
    have h1 : countWrites [WireOp.read body.length] = 0 := rfl
    have h2 : countWrites [WireOp.purge] = 0 := rfl
    omega
  · intro hbk hb1
    obtain ⟨w1, hw1⟩ :=
      scriptLoop_bad hdrs body (FVA600.encodeFrame cmd) b hb1 0
        (wire0 (scriptDev hdrs body)) none rfl rfl
        (by intro m hm; simpa using hbad m (by omega))
    unfold FVA600.query_device
    rw [if_neg (by simp [openS])]
    rw [show (0 : Nat) + b - 1 = b - 1 from by omega] at hw1
    rw [hw1]

/-- Witness for C2: with device error code 10 on the first two attempts and
success with body [7, 7] afterwards, a budget of 5 returns the body with
exactly 3 frame writes; with error code 5 on attempt 1 and code 10
afterwards, a budget of 2 surfaces code 10 — the last error observed. -/
theorem query_retry_bound_w :
    ((FVA600.query_device openS [183] 5 (wire0 (scriptDev hdrsA [7, 7]))).1 =
      .ok [7, 7] ∧
     countWrites
       (FVA600.query_device openS [183] 5 (wire0 (scriptDev hdrsA [7, 7]))).2.trace
       = 3) ∧
    (FVA600.query_device openS [183] 2 (wire0 (scriptDev hdrsB [9]))).1 =
      .error (.device (.known 10)) := by
  constructor
  · exact (query_retry_bound hdrsA [7, 7] [183] 2 5 (by decide)
      (by decide)).1 (by decide) (by decide)
  · exact (query_retry_bound hdrsB [9] [183] 2 2 (by decide)
      (by decide)).2 (by decide) (by decide)
